import Mathlib

/-!
Verification of the listing normalization & scoring engine of the
booking-agent repository (`accommodation_agent.py`,
`advanced_accommodation_agent.py`).

Modelling conventions:
* Python `float` values are modelled by `ℚ` (the numeric policy of the
  engine is pure arithmetic on decimal inputs; no claim here depends on
  binary floating-point rounding).
* Python `Optional[T]` fields are `Option T`; Python truthiness tests on
  optional numbers (`if listing.rating:`) treat both `None` and `0` as
  false, which is modelled explicitly.
* Operations that can raise in Python (division by zero, `min([])`)
  return `Option` results, with `none` standing for a raised exception.
* `list.sort` / `sorted` in Python are stable; they are modelled by
  insertion sort (`List.insertionSort`), which computes the same output
  as any stable sort for the same key.
-/

/-- `SearchCriteria` dataclass from `accommodation_agent.py` (lines 22-34).
The `__post_init__` default amenity list is applied by callers; the engine
receives the record fully formed. -/
structure SearchCriteria where
  location : String
  check_in : String
  check_out : String
  guests : Int
  max_price_per_night : ℚ
  property_type : String := "entire_place"
  amenities : List String
deriving DecidableEq, Repr

/-- `PropertyListing` dataclass from `accommodation_agent.py` (lines 36-50). -/
structure PropertyListing where
  platform : String
  title : String
  price_per_night : ℚ
  total_price : ℚ
  location : String
  rating : Option ℚ
  review_count : Option Int
  amenities : List String
  url : String
  property_type : String
  host_name : Option String := none
  instant_book : Bool := false
  cancellation_policy : Option String := none
deriving DecidableEq, Repr

/-- `DetailedPropertyListing` dataclass from
`advanced_accommodation_agent.py` (lines 28-65), extending
`PropertyListing`.  The `availability_calendar : Optional[Dict]` field is
modelled as an association list. -/
structure DetailedPropertyListing extends PropertyListing where
  description : Option String := none
  bedrooms : Option Int := none
  bathrooms : Option Int := none
  max_guests : Option Int := none
  square_meters : Option ℚ := none
  cleaning_fee : Option ℚ := none
  service_fee : Option ℚ := none
  taxes : Option ℚ := none
  security_deposit : Option ℚ := none
  weekly_discount : Option ℚ := none
  monthly_discount : Option ℚ := none
  availability_calendar : Option (List (String × String)) := none
  minimum_stay : Option Int := none
  maximum_stay : Option Int := none
  host_rating : Option ℚ := none
  host_response_time : Option String := none
  host_response_rate : Option ℚ := none
  host_verification : Option (List String) := none
  property_features : Option (List String) := none
  house_rules : Option (List String) := none
  cancellation_policy_details : Option String := none
  value_score : Option ℚ := none
  location_score : Option ℚ := none
  overall_score : Option ℚ := none
deriving DecidableEq, Repr

/-- Price term of `calculate_value_score`
(`advanced_accommodation_agent.py` lines 287-290):
`if listing.price_per_night > 0: score += max(0, 100 - (price/max_price)*100) * 0.4`.
Python raises `ZeroDivisionError` when the guard holds and
`criteria.max_price_per_night == 0`; that raise is modelled as `none`. -/
def price_term (listing : DetailedPropertyListing) (criteria : SearchCriteria) : Option ℚ :=
  if 0 < listing.price_per_night then
    if criteria.max_price_per_night = 0 then none
    else some (max 0 (100 - listing.price_per_night / criteria.max_price_per_night * 100) * (4/10))
  else some 0

/-- Amenity term of `calculate_value_score`
(`advanced_accommodation_agent.py` lines 292-295):
`if listing.amenities: score += (|criteria.amenities ∩ listing.amenities| / |criteria.amenities|) * 100 * 0.3`.
Python raises `ZeroDivisionError` when the guard holds and
`criteria.amenities` is empty; that raise is modelled as `none`. -/
def amenity_term (listing : DetailedPropertyListing) (criteria : SearchCriteria) : Option ℚ :=
  if listing.amenities.isEmpty then some 0
  else if criteria.amenities.isEmpty then none
  else some (((criteria.amenities.filter (fun a => a ∈ listing.amenities)).length : ℚ)
      / (criteria.amenities.length : ℚ) * 100 * (3/10))

/-- Rating term of `calculate_value_score`
(`advanced_accommodation_agent.py` lines 297-300):
`if listing.rating: score += (rating / 5.0) * 100 * 0.2`.
`if listing.rating:` is Python truthiness: skipped for `None` and for `0`. -/
def rating_term (listing : DetailedPropertyListing) : ℚ :=
  match listing.rating with
  | some r => if r = 0 then 0 else r / 5 * 100 * (1/5)
  | none => 0

/-- Host-rating term of `calculate_value_score`
(`advanced_accommodation_agent.py` lines 302-305):
`if listing.host_rating: score += (host_rating / 5.0) * 100 * 0.1`. -/
def host_term (listing : DetailedPropertyListing) : ℚ :=
  match listing.host_rating with
  | some r => if r = 0 then 0 else r / 5 * 100 * (1/10)
  | none => 0

/-- `calculate_value_score` from `advanced_accommodation_agent.py`
(lines 283-307): the running total of the four guarded terms, in source
order.  A `ZeroDivisionError` in an earlier term aborts the call, which
`Option.bind` reproduces. -/
def calculate_value_score (listing : DetailedPropertyListing)
    (criteria : SearchCriteria) : Option ℚ :=
  (price_term listing criteria).bind fun p =>
  (amenity_term listing criteria).map fun a =>
  p + a + rating_term listing + host_term listing

/-- ASCII lowercasing of one character, as Python `str.lower` acts on the
ASCII location strings handled by the engine. -/
def lowerChar (c : Char) : Char :=
  if 'A' ≤ c && c ≤ 'Z' then Char.ofNat (c.toNat + 32) else c

/-- Whether `pat` matches at the head of `l`. -/
def matchesAt : List Char → List Char → Bool
  | _, [] => true
  | [], _ :: _ => false
  | c :: cs, p :: ps => c = p && matchesAt cs ps

/-- Whether `p` occurs as a contiguous sublist of the second argument
(Python `in` on strings). -/
def subOccurs (p : List Char) : List Char → Bool
  | [] => matchesAt [] p
  | c :: cs => matchesAt (c :: cs) p || subOccurs p cs

/-- Python `pat in s.lower()` substring containment. -/
def containsLower (s pat : String) : Bool :=
  subOccurs pat.data (s.data.map lowerChar)

/-- `calculate_location_score` from `advanced_accommodation_agent.py`
(lines 309-324): `score = 0.0`, then `+= 80` when `"bar" in location.lower()`,
elif `"sutomore"` or `"petrovac"` occurs then `+= 60`, else `+= 40`.
The `criteria` parameter is accepted but never read by the source. -/
def calculate_location_score (listing : DetailedPropertyListing)
    (_criteria : SearchCriteria) : ℚ :=
  if containsLower listing.location "bar" then 80
  else if containsLower listing.location "sutomore"
      || containsLower listing.location "petrovac" then 60
  else 40

/-- The extended attribute bag built by `extract_detailed_property_info`
(`advanced_accommodation_agent.py` lines 141-223): a Python dict whose keys
are optionally populated from the property page.  A key whose extractor
stores `None` (e.g. `description`) is indistinguishable in the resulting
dataclass from an absent key, since every extended dataclass field defaults
to `None`; both are modelled as `none`.  The dict can also carry a
`host_name` key (line 187), which is modelled separately because the
constructor call in `get_detailed_property_info` already passes
`host_name=listing.host_name` and a duplicate keyword raises `TypeError`. -/
structure ExtendedInfo where
  description : Option String := none
  bedrooms : Option Int := none
  bathrooms : Option Int := none
  max_guests : Option Int := none
  cleaning_fee : Option ℚ := none
  service_fee : Option ℚ := none
  taxes : Option ℚ := none
  security_deposit : Option ℚ := none
  host_name : Option String := none
  host_rating : Option ℚ := none
  host_response_time : Option String := none
  property_features : Option (List String) := none
  house_rules : Option (List String) := none
deriving DecidableEq, Repr

/-- The `except` branch of `get_detailed_property_info`
(`advanced_accommodation_agent.py` lines 123-139): a
`DetailedPropertyListing` carrying only the basic fields of `listing`,
every extended field left at its `None` default. -/
def detailedFromBasic (listing : PropertyListing) : DetailedPropertyListing :=
  { toPropertyListing := listing }

/-- `get_detailed_property_info` from `advanced_accommodation_agent.py`
(lines 88-139), with the already-extracted attribute bag as input (the page
fetch itself is the scraping collaborator's job).  The constructor call at
lines 104-119 copies the thirteen basic fields from `listing` and splats
`**detailed_info`; when the bag contains a `host_name` key this raises
`TypeError: got multiple values for keyword argument`, which the
`except` branch (lines 123-139) turns into the bare fallback record. -/
def get_detailed_property_info (listing : PropertyListing)
    (detailed_info : ExtendedInfo) : DetailedPropertyListing :=
  if detailed_info.host_name.isSome then
    detailedFromBasic listing
  else
    { toPropertyListing := listing
      description := detailed_info.description
      bedrooms := detailed_info.bedrooms
      bathrooms := detailed_info.bathrooms
      max_guests := detailed_info.max_guests
      cleaning_fee := detailed_info.cleaning_fee
      service_fee := detailed_info.service_fee
      taxes := detailed_info.taxes
      security_deposit := detailed_info.security_deposit
      host_rating := detailed_info.host_rating
      host_response_time := detailed_info.host_response_time
      property_features := detailed_info.property_features
      house_rules := detailed_info.house_rules }

/-- Sort key of line 251 of `advanced_accommodation_agent.py`:
`lambda x: x.overall_score or 0`.  Python `or` yields `0` for the falsy
values `None` and `0.0`. -/
def overallKey (listing : DetailedPropertyListing) : ℚ :=
  match listing.overall_score with
  | some v => if v = 0 then 0 else v
  | none => 0

/-- The ordering used by the ranking sort: `x` may stay before `y` exactly
when its key is at least `y`'s (descending by `overall_score or 0`). -/
def rankLE (x y : DetailedPropertyListing) : Prop :=
  overallKey y ≤ overallKey x

instance : DecidableRel rankLE :=
  fun x y => inferInstanceAs (Decidable (overallKey y ≤ overallKey x))

instance : IsTotal DetailedPropertyListing rankLE :=
  ⟨fun a b => le_total (overallKey b) (overallKey a)⟩

instance : IsTrans DetailedPropertyListing rankLE :=
  ⟨fun _ _ _ h1 h2 => le_trans h2 h1⟩

/-- The ranking step, line 251 of `advanced_accommodation_agent.py`:
`detailed_listings.sort(key=lambda x: x.overall_score or 0, reverse=True)`.
Python's `list.sort` is stable; every stable sort produces the same output
for a given key, so it is modelled by insertion sort on `rankLE`. -/
def rankListings (listings : List DetailedPropertyListing) :
    List DetailedPropertyListing :=
  List.insertionSort rankLE listings

/-- Sum of a list of rationals. -/
def listSum (l : List ℚ) : ℚ := l.foldl (· + ·) 0

/-- `np.mean` over a nonempty list. -/
def listMean (l : List ℚ) : ℚ := listSum l / (l.length : ℚ)

/-- Ascending insertion for `np.median`'s internal sort. -/
def insertAsc (x : ℚ) : List ℚ → List ℚ
  | [] => [x]
  | y :: ys => if x ≤ y then x :: y :: ys else y :: insertAsc x ys

/-- Ascending sort of a rational list. -/
def sortAsc : List ℚ → List ℚ
  | [] => []
  | x :: xs => insertAsc x (sortAsc xs)

/-- `np.median`: middle element of the sorted list, or the mean of the two
middle elements for even length. -/
def npMedian (l : List ℚ) : ℚ :=
  let s := sortAsc l
  let n := s.length
  if n % 2 = 1 then s.getD (n / 2) 0
  else (s.getD (n / 2 - 1) 0 + s.getD (n / 2) 0) / 2

/-- The square of `np.std`: mean squared deviation from the mean.  The
source stores `np.std(prices)`, the square root of this value; `ℚ` is not
closed under square roots and no claim below depends on the rooted value. -/
def npVarianceOf (l : List ℚ) : ℚ :=
  let m := listMean l
  listMean (l.map (fun x => (x - m) ^ 2))

/-- The `price_distribution` entry of `generate_market_insights`
(`advanced_accommodation_agent.py` lines 364-371). -/
structure PriceDistribution where
  min : ℚ
  max : ℚ
  median : ℚ
  std_sq : ℚ
deriving DecidableEq, Repr

/-- One platform's entry of the `platform_comparison` mapping
(`advanced_accommodation_agent.py` lines 373-386). -/
structure PlatformStats where
  count : Nat
  avg_price : ℚ
  prices : List ℚ
deriving DecidableEq, Repr

/-- The insight mapping returned by `generate_market_insights`: a dict with
up to three keys, each `none` when the key is absent.  The empty mapping is
the record with all three keys absent. -/
structure MarketInsights where
  price_distribution : Option PriceDistribution := none
  platform_comparison : Option (List (String × PlatformStats)) := none
  popular_amenities : Option (List (String × Nat)) := none
deriving DecidableEq, Repr

/-- One step of the first `platform_comparison` loop
(`advanced_accommodation_agent.py` lines 375-381): find-or-create the
platform's entry (Python dicts keep first-seen key order), bump its count,
append the price. -/
def addPlatformPrice (stats : List (String × PlatformStats))
    (platform : String) (price : ℚ) : List (String × PlatformStats) :=
  match stats with
  | [] => [(platform, { count := 1, avg_price := 0, prices := [price] })]
  | (p, st) :: rest =>
    if p = platform then
      (p, { st with count := st.count + 1, prices := st.prices ++ [price] }) :: rest
    else (p, st) :: addPlatformPrice rest platform price

/-- Both `platform_comparison` loops (`advanced_accommodation_agent.py`
lines 374-386): accumulate counts and prices per platform, then set each
`avg_price` to the mean of the accumulated prices. -/
def platformComparisonOf (listings : List DetailedPropertyListing) :
    List (String × PlatformStats) :=
  (listings.foldl (fun acc l => addPlatformPrice acc l.platform l.price_per_night) []).map
    (fun e => (e.1, { e.2 with avg_price := listMean e.2.prices }))

/-- One step of the amenity-count loop (`advanced_accommodation_agent.py`
lines 389-392): `amenity_counts[amenity] = amenity_counts.get(amenity, 0) + 1`
with dict insertion order preserved. -/
def bumpAmenity (counts : List (String × Nat)) (a : String) : List (String × Nat) :=
  match counts with
  | [] => [(a, 1)]
  | (x, n) :: rest =>
    if x = a then (x, n + 1) :: rest else (x, n) :: bumpAmenity rest a

/-- The amenity-frequency table over all listings' amenity lists. -/
def amenityCountsOf (listings : List DetailedPropertyListing) : List (String × Nat) :=
  listings.foldl (fun acc l => l.amenities.foldl bumpAmenity acc) []

/-- Ordering for `sorted(amenity_counts.items(), key=lambda x: x[1],
reverse=True)`: descending by count; `sorted` is stable. -/
def amenityGE (x y : String × Nat) : Prop := y.2 ≤ x.2

instance : DecidableRel amenityGE :=
  fun x y => inferInstanceAs (Decidable (y.2 ≤ x.2))

/-- `generate_market_insights` from `advanced_accommodation_agent.py`
(lines 356-396).  An empty listing set returns the empty mapping at once
(lines 361-362).  Otherwise the source computes `min(prices)`/`max(prices)`
over the positive prices, which raises `ValueError` when that filtered
list is empty; the raise is modelled as `none`. -/
def generate_market_insights (listings : List DetailedPropertyListing)
    (_criteria : SearchCriteria) : Option MarketInsights :=
  if listings.isEmpty then
    some { price_distribution := none, platform_comparison := none, popular_amenities := none }
  else
    match (listings.filter (fun l => 0 < l.price_per_night)).map
        (fun l => l.price_per_night) with
    | [] => none
    | p :: ps =>
      some
        { price_distribution := some
            { min := ps.foldl min p
              max := ps.foldl max p
              median := npMedian (p :: ps)
              std_sq := npVarianceOf (p :: ps) }
          platform_comparison := some (platformComparisonOf listings)
          popular_amenities := some
            ((List.insertionSort amenityGE (amenityCountsOf listings)).take 10) }

/-- `price_text.replace(',', '')` from `extract_price`
(`accommodation_agent.py` line 539): drop every comma. -/
def stripCommas (l : List Char) : List Char := l.filter (fun c => c ≠ ',')

/-- Split a maximal leading run of decimal digits from a character list. -/
def takeDigits : List Char → List Char × List Char
  | [] => ([], [])
  | c :: cs =>
    if c.isDigit then
      let r := takeDigits cs
      (c :: r.1, r.2)
    else ([], c :: cs)

/-- After the integer-digit run of a regex match of `[\d,]+\.?\d*` on a
comma-free text: an optional single dot followed by a maximal digit run. -/
def afterInt (intD : List Char) (rest : List Char) :
    Option (List Char × Option (List Char)) :=
  match rest with
  | [] => some (intD, none)
  | c :: rs => if c = '.' then some (intD, some (takeDigits rs).1) else some (intD, none)

/-- `re.search(r'[\d,]+\.?\d*', text)` on a comma-free text: the leftmost
match starts at the first digit and greedily takes digits, one optional
dot, then digits; `none` when the text has no digit. -/
def findNumber : List Char → Option (List Char × Option (List Char))
  | [] => none
  | c :: cs =>
    if c.isDigit then
      let ir := takeDigits (c :: cs)
      afterInt ir.1 ir.2
    else findNumber cs

/-- Numeric value of one decimal digit character. -/
def digitVal (c : Char) : Nat := c.toNat - '0'.toNat

/-- Value of a digit string read in base 10. -/
def digitsToNat (l : List Char) : Nat := l.foldl (fun n c => 10 * n + digitVal c) 0

/-- `float(match.group())` on a match `intD ["." fracD]`. -/
def numberValue (intD : List Char) (fracD : Option (List Char)) : ℚ :=
  (digitsToNat intD : ℚ) +
    match fracD with
    | none => 0
    | some f => (digitsToNat f : ℚ) / ((10 : ℚ) ^ f.length)

/-- `extract_price` from `accommodation_agent.py` (lines 534-544): strip
commas, take the first `[\d,]+\.?\d*` match as a float, else `0.0`. -/
def extract_price (price_text : String) : ℚ :=
  match findNumber (stripCommas price_text.data) with
  | some nf => numberValue nf.1 nf.2
  | none => 0

/-- A detailed listing carrying only search-result data, as produced for
the concrete cases below; every unset optional field is `None`. -/
def baseListing (price : ℚ) (loc : String) (ams : List String)
    (r : Option ℚ) : DetailedPropertyListing :=
  { platform := "Airbnb", title := "t", price_per_night := price
    total_price := price, location := loc, rating := r, review_count := none
    amenities := ams, url := "u", property_type := "apartment" }

/-- Concrete criteria for the cases below, shaped like the `main` example
of the source (`advanced_accommodation_agent.py` lines 482-489). -/
def mkCriteria (loc : String) (maxPrice : ℚ) (ams : List String) : SearchCriteria :=
  { location := loc, check_in := "2024-09-01", check_out := "2024-09-15"
    guests := 2, max_price_per_night := maxPrice, amenities := ams }

def c1Listing : DetailedPropertyListing := baseListing 0 "Bar" [] none

def c1Criteria : SearchCriteria :=
  mkCriteria "Bar, Montenegro" 40 ["kitchen", "wifi", "air_conditioning"]

/-- C1 (counterexample): a listing with `price_per_night = 0` against
criteria with `max_price_per_night = 40 > 0` and no other applicable
sub-score gets `value_score = 0`, not the claimed maximal price
contribution of 40 points: the source guard `if listing.price_per_night > 0`
skips the price sub-score entirely for zero-price listings. -/
theorem C1_price_zero_counterexample :
    c1Listing.price_per_night = 0 ∧
    (0 : ℚ) < c1Criteria.max_price_per_night ∧
    calculate_value_score c1Listing c1Criteria = some 0 ∧
    (0 : ℚ) ≠ 40 := by
  refine ⟨rfl, by norm_num [c1Criteria, mkCriteria], ?_, by norm_num⟩
  simp [calculate_value_score, price_term, amenity_term, rating_term, host_term,
    c1Listing, c1Criteria, baseListing, mkCriteria]

/-- C1 (amended): for every listing with `price_per_night = 0` and every
criteria with `max_price_per_night > 0`, the price sub-score is omitted —
it contributes exactly 0 to `value_score`, which then equals the sum of
the remaining sub-scores. -/
theorem C1_zero_price_contributes_nothing (l : DetailedPropertyListing)
    (c : SearchCriteria) (h : l.price_per_night = 0)
    (hm : 0 < c.max_price_per_night) :
    price_term l c = some 0 ∧
    calculate_value_score l c =
      (amenity_term l c).map (fun a => a + rating_term l + host_term l) := by
  have hp : price_term l c = some 0 := by simp [price_term, h]
  refine ⟨hp, ?_⟩
  rw [calculate_value_score, hp]
  cases amenity_term l c <;> simp

/-- Witness for `C1_zero_price_contributes_nothing` at a concrete
zero-price listing with amenities and a rating. -/
theorem C1_zero_price_contributes_nothing_witness :
    (baseListing 0 "Bar" ["wifi", "kitchen"] (some 4)).price_per_night = 0 ∧
    (0 : ℚ) < c1Criteria.max_price_per_night ∧
    (price_term (baseListing 0 "Bar" ["wifi", "kitchen"] (some 4)) c1Criteria = some 0 ∧
      calculate_value_score (baseListing 0 "Bar" ["wifi", "kitchen"] (some 4)) c1Criteria =
        (amenity_term (baseListing 0 "Bar" ["wifi", "kitchen"] (some 4)) c1Criteria).map
          (fun a => a + rating_term (baseListing 0 "Bar" ["wifi", "kitchen"] (some 4)) +
            host_term (baseListing 0 "Bar" ["wifi", "kitchen"] (some 4)))) :=
  ⟨rfl, by norm_num [c1Criteria, mkCriteria],
    C1_zero_price_contributes_nothing _ _ rfl (by norm_num [c1Criteria, mkCriteria])⟩

def c2L1 : DetailedPropertyListing := baseListing 35 "Bar" ["kitchen", "wifi"] (some (9/2))

def c2L2 : DetailedPropertyListing :=
  baseListing 50 "Bar" ["kitchen", "wifi", "air_conditioning"] (some 4)

/-- C2: the worked end-to-end example of the spec.  Against criteria
`max_price = 40`, amenities `{kitchen, wifi, air_conditioning}`, listing L1
(price 35, amenities `{kitchen, wifi}`, rating 4.5, no host rating) scores
exactly 43 and listing L2 (price 50, all three amenities, rating 4.0)
scores exactly 46, so the cheaper L1 ranks below L2 on value. -/
theorem C2_worked_example :
    calculate_value_score c2L1 c1Criteria = some 43 ∧
    calculate_value_score c2L2 c1Criteria = some 46 ∧
    (43 : ℚ) < 46 := by
  refine ⟨?_, ?_, by norm_num⟩ <;>
    · simp [calculate_value_score, price_term, amenity_term, rating_term, host_term,
        c2L1, c2L2, c1Criteria, baseListing, mkCriteria, max_def]
      norm_num

def c3Criteria : SearchCriteria :=
  mkCriteria "Bar, Montenegro" 40 ["kitchen", "wifi", "air_conditioning"]

/-- C3 (counterexample): with `max_price_per_night = 40 > 0` and two
listings identical except for price, prices `0 ≤ 10`, the zero-price
listing scores 0 while the 10-price listing scores 30 — the score
increases with price, refuting monotone non-increase over prices `≥ 0`
(the source skips the price sub-score at price 0 instead of granting it
the formula's value 100). -/
theorem C3_monotonicity_counterexample :
    (baseListing 0 "Bar" [] none).price_per_night = 0 ∧
    (baseListing 10 "Bar" [] none).price_per_night = 10 ∧
    (0 : ℚ) ≤ 10 ∧ (0 : ℚ) < c3Criteria.max_price_per_night ∧
    calculate_value_score (baseListing 0 "Bar" [] none) c3Criteria = some 0 ∧
    calculate_value_score (baseListing 10 "Bar" [] none) c3Criteria = some 30 ∧
    ¬ ((0 : ℚ) ≥ 30) := by
  refine ⟨rfl, rfl, by norm_num, by norm_num [c3Criteria, mkCriteria], ?_, ?_, by norm_num⟩ <;>
    norm_num [calculate_value_score, price_term, amenity_term, rating_term, host_term,
      c3Criteria, baseListing, mkCriteria, max_def]

/-- C3 (amended): for every criteria with `max_price_per_night > 0` and
every pair of listings identical except for price, with `0 < p1 ≤ p2`
(both strictly positive), the value score at `p1` is at least the value
score at `p2`: monotone non-increase holds on strictly positive prices. -/
theorem C3_monotone_for_positive_prices (l : DetailedPropertyListing)
    (c : SearchCriteria) (p1 p2 s1 s2 : ℚ) (hp1 : 0 < p1) (h12 : p1 ≤ p2)
    (hm : 0 < c.max_price_per_night)
    (e1 : calculate_value_score { l with price_per_night := p1 } c = some s1)
    (e2 : calculate_value_score { l with price_per_night := p2 } c = some s2) :
    s2 ≤ s1 := by
  have hm0 : c.max_price_per_night ≠ 0 := ne_of_gt hm
  have hp2 : 0 < p2 := lt_of_lt_of_le hp1 h12
  have t1 : price_term { l with price_per_night := p1 } c
      = some (max 0 (100 - p1 / c.max_price_per_night * 100) * (4/10)) := by
    simp [price_term, hp1, hm0]
  have t2 : price_term { l with price_per_night := p2 } c
      = some (max 0 (100 - p2 / c.max_price_per_night * 100) * (4/10)) := by
    simp [price_term, hp2, hm0]
  have hA : amenity_term { l with price_per_night := p2 } c
      = amenity_term { l with price_per_night := p1 } c := rfl
  have hr : rating_term { l with price_per_night := p2 }
      = rating_term { l with price_per_night := p1 } := rfl
  have hh : host_term { l with price_per_night := p2 }
      = host_term { l with price_per_night := p1 } := rfl
  rw [calculate_value_score, t1] at e1
  rw [calculate_value_score, t2, hA, hr, hh] at e2
  rcases hav : amenity_term { l with price_per_night := p1 } c with _ | a
  · rw [hav] at e1
    simp at e1
  · rw [hav] at e1
    rw [hav] at e2
    simp at e1 e2
    have hdiv : p1 / c.max_price_per_night ≤ p2 / c.max_price_per_night := by gcongr
    have hmax : max 0 (100 - p2 / c.max_price_per_night * 100)
        ≤ max 0 (100 - p1 / c.max_price_per_night * 100) :=
      max_le_max le_rfl (by linarith)
    have hmul : max 0 (100 - p2 / c.max_price_per_night * 100) * (4/10)
        ≤ max 0 (100 - p1 / c.max_price_per_night * 100) * (4/10) :=
      mul_le_mul_of_nonneg_right hmax (by norm_num)
    linarith [e1, e2, hmul]

/-- Witness for `C3_monotone_for_positive_prices`: prices 10 and 20
against `max_price_per_night = 40` give scores 30 and 20. -/
theorem C3_monotone_for_positive_prices_witness :
    (0 : ℚ) < 10 ∧ (10 : ℚ) ≤ 20 ∧ (0 : ℚ) < c3Criteria.max_price_per_night ∧
    (20 : ℚ) ≤ 30 :=
  ⟨by norm_num, by norm_num, by norm_num [c3Criteria, mkCriteria],
    C3_monotone_for_positive_prices (baseListing 0 "Bar" [] none) c3Criteria 10 20 30 20
      (by norm_num) (by norm_num) (by norm_num [c3Criteria, mkCriteria])
      (by simp [calculate_value_score, price_term, amenity_term, rating_term, host_term,
            c3Criteria, baseListing, mkCriteria, max_def]
          norm_num)
      (by simp [calculate_value_score, price_term, amenity_term, rating_term, host_term,
            c3Criteria, baseListing, mkCriteria, max_def]
          norm_num)⟩

def c4Listing : DetailedPropertyListing := baseListing 0 "Bar" ["wifi"] none

def c4Criteria : SearchCriteria := mkCriteria "Bar, Montenegro" 40 []

/-- C4: for a listing with a non-empty amenity list and criteria whose
amenity set is empty, `calculate_value_score` hits
`len(criteria.amenities)` as a zero denominator: the guard at line 293
tests `listing.amenities`, not `criteria.amenities`, so the call raises
`ZeroDivisionError` (modelled as `none`) instead of contributing 0. -/
theorem C4_empty_criteria_amenities_fault :
    c4Listing.amenities ≠ [] ∧ c4Criteria.amenities = [] ∧
    calculate_value_score c4Listing c4Criteria = none := by
  refine ⟨by simp [c4Listing, baseListing], rfl, ?_⟩
  simp [calculate_value_score, price_term, amenity_term,
    c4Listing, c4Criteria, baseListing, mkCriteria]

/-- Modelled from the spec: the claim's "search's primary locale token
(derived from criteria.location)".  The source has no such derivation (its
locale tokens are hardcoded); for the refutation the token is read, per the
spec's words, as the lowercased text of `criteria.location` before the
first comma, e.g. `"Sutomore, Montenegro" ↦ "sutomore"`. -/
def primary_locale_token (criteria : SearchCriteria) : String :=
  String.mk ((criteria.location.data.takeWhile (fun c => c ≠ ',')).map lowerChar)

def c5Listing : DetailedPropertyListing :=
  baseListing 30 "Sutomore Beach Apartment" [] none

def c5Criteria : SearchCriteria := mkCriteria "Sutomore, Montenegro" 40 ["wifi"]

/-- C5 (counterexample): for a search for "Sutomore, Montenegro", a listing
whose location text contains the search's primary locale token "sutomore"
scores 60, not the claimed 80: the 80-branch tests the hardcoded token
"bar", not a token derived from `criteria.location`. -/
theorem C5_criteria_token_counterexample :
    containsLower c5Listing.location (primary_locale_token c5Criteria) = true ∧
    calculate_location_score c5Listing c5Criteria = 60 ∧
    (60 : ℚ) ≠ 80 := by
  refine ⟨by decide, ?_, by norm_num⟩
  have hb : containsLower "Sutomore Beach Apartment" "bar" = false := by decide
  have hs : containsLower "Sutomore Beach Apartment" "sutomore" = true := by decide
  simp [calculate_location_score, c5Listing, baseListing, hb, hs]

/-- C5 (amended): `calculate_location_score` returns exactly 80 when the
listing's lowercased location text contains the fixed token "bar", exactly
60 when it instead contains "sutomore" or "petrovac", and exactly 40
otherwise; the result is always one of {40, 60, 80}.  The tokens are
hardcoded and independent of the search criteria. -/
theorem C5_fixed_token_location_score (l : DetailedPropertyListing)
    (c : SearchCriteria) :
    (containsLower l.location "bar" = true → calculate_location_score l c = 80) ∧
    (containsLower l.location "bar" = false →
      (containsLower l.location "sutomore" || containsLower l.location "petrovac") = true →
      calculate_location_score l c = 60) ∧
    (containsLower l.location "bar" = false →
      (containsLower l.location "sutomore" || containsLower l.location "petrovac") = false →
      calculate_location_score l c = 40) ∧
    (calculate_location_score l c = 40 ∨ calculate_location_score l c = 60 ∨
      calculate_location_score l c = 80) := by
  unfold calculate_location_score
  by_cases h1 : containsLower l.location "bar" <;>
    by_cases h2 : (containsLower l.location "sutomore"
        || containsLower l.location "petrovac") <;>
      simp [h1, h2]

/-- Witness for `C5_fixed_token_location_score` on a location containing
"bar". -/
theorem C5_fixed_token_location_score_witness :
    containsLower (baseListing 30 "Bar Old Town" [] none).location "bar" = true ∧
    calculate_location_score (baseListing 30 "Bar Old Town" [] none) c5Criteria = 80 :=
  ⟨by decide, (C5_fixed_token_location_score _ _).1 (by decide)⟩

def c6A : DetailedPropertyListing :=
  { baseListing 30 "Bar" [] none with overall_score := some 90 }

def c6B : DetailedPropertyListing :=
  { baseListing 25 "Bar" [] none with overall_score := some 90 }

/-- C6 (counterexample): for listings A (overall score 90, price 30) and
B (overall score 90, price 25) in input order [A, B], the ranking sort of
line 251 keeps [A, B]: the key is `overall_score or 0` alone and Python's
sort is stable, so ties are not broken by ascending price (nor by source
identifier) and B is not placed before A. -/
theorem C6_tie_order_counterexample :
    c6A.overall_score = some 90 ∧ c6B.overall_score = some 90 ∧
    c6B.price_per_night < c6A.price_per_night ∧
    rankListings [c6A, c6B] = [c6A, c6B] ∧
    rankListings [c6A, c6B] ≠ [c6B, c6A] := by
  have h4 : rankListings [c6A, c6B] = [c6A, c6B] := by
    simp [rankListings, List.insertionSort, List.orderedInsert, rankLE,
      overallKey, c6A, c6B, baseListing]
  refine ⟨rfl, rfl, by norm_num [c6A, c6B, baseListing], h4, ?_⟩
  rw [h4]
  norm_num [c6A, c6B, baseListing]

/-- C6 (amended): the ranking sorts descending by `overall_score or 0` and
is stable, so equal-score listings keep their input order: the output is
always sorted for `rankLE`, and a tied pair [a, b] is returned as [a, b]
(for A (90, $30), B (90, $25) given as [A, B], A stays first). -/
theorem C6_stable_tie_ranking (a b : DetailedPropertyListing)
    (h : overallKey a = overallKey b) :
    (∀ ls : List DetailedPropertyListing, List.Sorted rankLE (rankListings ls)) ∧
    rankListings [a, b] = [a, b] := by
  constructor
  · intro ls
    exact List.sorted_insertionSort rankLE ls
  · simp [rankListings, List.insertionSort, List.orderedInsert, rankLE, h]

/-- Witness for `C6_stable_tie_ranking` at the two concrete tied listings. -/
theorem C6_stable_tie_ranking_witness :
    overallKey c6A = overallKey c6B ∧
    ((∀ ls : List DetailedPropertyListing, List.Sorted rankLE (rankListings ls)) ∧
      rankListings [c6A, c6B] = [c6A, c6B]) :=
  ⟨rfl, C6_stable_tie_ranking c6A c6B rfl⟩

/-- C8: merging an extended attribute bag never changes the thirteen basic
fields of the existing listing (in particular no present field is replaced
by an absent field of the bag: the merge only adds extended fields), and it
is idempotent: merging the same bag into the merge's own result returns the
same record. -/
theorem C8_merge_idempotent_and_preserving (L : PropertyListing) (e : ExtendedInfo) :
    (get_detailed_property_info L e).toPropertyListing = L ∧
    get_detailed_property_info (get_detailed_property_info L e).toPropertyListing e
      = get_detailed_property_info L e := by
  by_cases h : e.host_name.isSome <;>
    simp [get_detailed_property_info, detailedFromBasic, h]

/-- C9: the market aggregator returns the empty insight mapping (no price
distribution, platform comparison, or amenity entries) for the empty
listing set, without raising (`some` marks a normal return). -/
theorem C9_empty_market_insights (c : SearchCriteria) :
    generate_market_insights [] c =
      some { price_distribution := none, platform_comparison := none,
             popular_amenities := none } := rfl

/-- C10: `calculate_location_score` reads nothing from the criteria — its
result is the same for every pair of criteria, depending only on the
listing's location text. -/
theorem C10_location_score_criteria_independent
    (l : DetailedPropertyListing) (c1 c2 : SearchCriteria) :
    calculate_location_score l c1 = calculate_location_score l c2 := rfl

theorem stripCommas_append (l r : List Char) :
    stripCommas (l ++ r) = stripCommas l ++ stripCommas r := by
  simp [stripCommas]

theorem stripCommas_digit_free (l : List Char) (h : ∀ c ∈ l, c.isDigit = false) :
    ∀ c ∈ stripCommas l, c.isDigit = false := by
  intro c hc
  exact h c (List.mem_of_mem_filter hc)

theorem takeDigits_digit_free (r : List Char) (h : ∀ c ∈ r, c.isDigit = false) :
    takeDigits r = ([], r) := by
  cases r with
  | nil => rfl
  | cons c cs => simp [takeDigits, h c (List.mem_cons_self c cs)]

theorem takeDigits_cons_not_digit (c : Char) (cs : List Char) (h : c.isDigit = false) :
    takeDigits (c :: cs) = ([], c :: cs) := by
  simp [takeDigits, h]

theorem takeDigits_append (d r : List Char) (hd : ∀ c ∈ d, c.isDigit = true) :
    takeDigits (d ++ r) = (d ++ (takeDigits r).1, (takeDigits r).2) := by
  induction d with
  | nil => simp
  | cons c cs ih =>
    have hc : c.isDigit = true := hd c (List.mem_cons_self c cs)
    have ih' := ih (fun x hx => hd x (List.mem_cons_of_mem c hx))
    simp [takeDigits, hc, ih']

theorem findNumber_skip (l r : List Char) (h : ∀ c ∈ l, c.isDigit = false) :
    findNumber (l ++ r) = findNumber r := by
  induction l with
  | nil => rfl
  | cons c cs ih =>
    have hc := h c (List.mem_cons_self c cs)
    have ih' := ih (fun x hx => h x (List.mem_cons_of_mem c hx))
    simp [findNumber, hc, ih']

theorem findNumber_none (l : List Char) (h : ∀ c ∈ l, c.isDigit = false) :
    findNumber l = none := by
  induction l with
  | nil => rfl
  | cons c cs ih =>
    simp [findNumber, h c (List.mem_cons_self c cs),
      ih (fun x hx => h x (List.mem_cons_of_mem c hx))]

/-- The characters a well-formed decimal number token contributes after
comma stripping: the integer digits followed, for a fractional part, by a
dot and the fraction digits. -/
def fracRepr : Option (List Char) → List Char
  | none => []
  | some f => '.' :: f

/-- `extract_price` on a text made of a digit-free prelude, one
well-formed decimal number token (integer digits, optional dot and
fraction digits, commas allowed as separators), and a digit-free tail:
the parsed value is exactly the token's value. -/
theorem extract_price_well_formed (pre tok suf intD : List Char)
    (fracD : Option (List Char))
    (hpre : ∀ c ∈ pre, c.isDigit = false)
    (hsuf : ∀ c ∈ suf, c.isDigit = false)
    (htok : stripCommas tok = intD ++ fracRepr fracD)
    (hne : intD ≠ [])
    (hint : ∀ c ∈ intD, c.isDigit = true)
    (hfrac : ∀ f, fracD = some f → ∀ c ∈ f, c.isDigit = true) :
    extract_price (String.mk (pre ++ tok ++ suf)) = numberValue intD fracD := by
  have hsp := stripCommas_digit_free pre hpre
  have hss := stripCommas_digit_free suf hsuf
  have hrw : stripCommas (pre ++ tok ++ suf)
      = stripCommas pre ++ ((intD ++ fracRepr fracD) ++ stripCommas suf) := by
    simp [stripCommas_append, htok, List.append_assoc]
  have hskip : findNumber (stripCommas (pre ++ tok ++ suf))
      = findNumber ((intD ++ fracRepr fracD) ++ stripCommas suf) := by
    rw [hrw]
    exact findNumber_skip _ _ hsp
  rcases intD with _ | ⟨d, ds⟩
  · exact absurd rfl hne
  have hd : d.isDigit = true := hint d (List.mem_cons_self d ds)
  cases fracD with
  | some f =>
    have hf : ∀ c ∈ f, c.isDigit = true := hfrac f rfl
    have hTD : takeDigits ((d :: ds) ++ ('.' :: (f ++ stripCommas suf)))
        = (d :: ds, '.' :: (f ++ stripCommas suf)) := by
      rw [takeDigits_append _ _ hint,
        takeDigits_cons_not_digit '.' (f ++ stripCommas suf) (by decide)]
      simp
    have hF : findNumber ((d :: ds ++ fracRepr (some f)) ++ stripCommas suf)
        = some (d :: ds, some f) := by
      simp only [fracRepr, List.cons_append, List.append_assoc]
      rw [findNumber]
      simp only [hd, if_true]
      rw [show ((d :: (ds ++ ('.' :: (f ++ stripCommas suf)))) : List Char)
          = (d :: ds) ++ ('.' :: (f ++ stripCommas suf)) by simp]
      rw [hTD]
      rw [afterInt]
      simp [takeDigits_append f _ hf, takeDigits_digit_free _ hss]
    rw [show extract_price (String.mk (pre ++ tok ++ suf))
        = match findNumber (stripCommas (pre ++ tok ++ suf)) with
          | some nf => numberValue nf.1 nf.2
          | none => 0 from rfl]
    rw [hskip, hF]
  | none =>
    have hTD : takeDigits ((d :: ds) ++ stripCommas suf)
        = (d :: ds, stripCommas suf) := by
      rw [takeDigits_append _ _ hint, takeDigits_digit_free _ hss]
      simp
    have hF0 : findNumber ((d :: ds ++ fracRepr none) ++ stripCommas suf)
        = afterInt (d :: ds) (stripCommas suf) := by
      simp only [fracRepr, List.append_nil, List.cons_append]
      rw [findNumber]
      simp only [hd, if_true]
      rw [show ((d :: (ds ++ stripCommas suf)) : List Char)
          = (d :: ds) ++ stripCommas suf by simp]
      rw [hTD]
    rw [show extract_price (String.mk (pre ++ tok ++ suf))
        = match findNumber (stripCommas (pre ++ tok ++ suf)) with
          | some nf => numberValue nf.1 nf.2
          | none => 0 from rfl]
    rw [hskip, hF0]
    rcases hSS : stripCommas suf with _ | ⟨c, ss2⟩
    · simp [afterInt]
    · have hss2 : ∀ x ∈ ss2, x.isDigit = false := by
        intro x hx
        exact hss x (hSS ▸ List.mem_cons_of_mem c hx)
      by_cases hc : c = '.'
      · subst hc
        rw [afterInt]
        simp [takeDigits_digit_free ss2 hss2, numberValue, digitsToNat]
      · rw [afterInt]
        simp [hc]

/-- C7: the price parser is a total function of the input string (it never
throws: the regex match contains a digit whenever it exists, so the float
conversion always succeeds, and an absent match yields 0.0).  On a text
whose digits form one well-formed decimal number — optional digit-free
prelude and tail such as a currency symbol and unit words, optional comma
thousands separators — it returns exactly that number, and on a text with
no digits at all it returns 0. -/
theorem C7_extract_price_contract :
    (∀ (pre tok suf intD : List Char) (fracD : Option (List Char)),
      (∀ c ∈ pre, c.isDigit = false) →
      (∀ c ∈ suf, c.isDigit = false) →
      stripCommas tok = intD ++ fracRepr fracD →
      intD ≠ [] →
      (∀ c ∈ intD, c.isDigit = true) →
      (∀ f, fracD = some f → ∀ c ∈ f, c.isDigit = true) →
      extract_price (String.mk (pre ++ tok ++ suf)) = numberValue intD fracD) ∧
    (∀ s : String, (∀ c ∈ s.data, c.isDigit = false) → extract_price s = 0) := by
  constructor
  · exact extract_price_well_formed
  · intro s h
    have hn := findNumber_none (stripCommas s.data) (stripCommas_digit_free s.data h)
    simp [extract_price, hn]

/-- Witness for `C7_extract_price_contract`: the text
`"Total: $1,234.56 per night"` parses to exactly `1234.56`, and a text
with no digits parses to 0. -/
theorem C7_extract_price_contract_witness :
    (∀ c ∈ "Total: $".data, c.isDigit = false) ∧
    (∀ c ∈ " per night".data, c.isDigit = false) ∧
    stripCommas "1,234.56".data = "1234".data ++ fracRepr (some "56".data) ∧
    extract_price (String.mk ("Total: $".data ++ "1,234.56".data ++ " per night".data))
      = 1234 + 56 / 100 ∧
    extract_price "no price here" = 0 :=
  ⟨by decide, by decide, by decide,
    (C7_extract_price_contract.1 "Total: $".data "1,234.56".data " per night".data
        "1234".data (some "56".data) (by decide) (by decide) (by decide)
        (by decide) (by decide)
        (fun f hf => (Option.some.inj hf) ▸
          (by decide : ∀ c ∈ "56".data, c.isDigit = true))).trans
      (by
        have h1 : digitsToNat ("1234".data) = 1234 := by decide
        have h2 : digitsToNat ("56".data) = 56 := by decide
        have h3 : ("56".data).length = 2 := by decide
        simp [numberValue, h1, h2, h3]
        norm_num),
    C7_extract_price_contract.2 "no price here" (by decide)⟩
